import Mathlib

/-!
Shallow embedding of `codex_feishu.go` (package main of codex-feishu-notify):
a one-shot CLI that parses a Codex notification JSON, builds a Feishu
interactive-card message, optionally signs it (HMAC-SHA256 + base64), and
POSTs it to a webhook.

Modelling conventions:
* Go strings are Lean `String`s; `[]rune(s)` is `s.data : List Char`
  (both are sequences of Unicode code points).
* Go `int` / `int64` are `Int`; byte values are `Nat` (each < 256) and
  32/64-bit words are `Nat` reduced mod 2^32 / 2^64 where overflow matters.
* External effects (`os.Getenv`, `json.Unmarshal`, the HTTP round trip,
  `time.Now`) are oracle parameters threaded through the model.
-/

namespace CodexFeishu

/-! ## truncateRunes (codex_feishu.go lines 294-306)

```go
func truncateRunes(s string, limit int) string {
    if limit <= 0 { return "" }
    runes := []rune(s)
    if len(runes) <= limit { return s }
    if limit <= 3 { return string(runes[:limit]) }
    return string(runes[:limit-3]) + "..."
}
```
The function only looks at the rune sequence, so we model it on `List Char`.
`runes[:k]` is `List.take k`; the appended `"..."` literal is three ASCII
dots. -/

def ellipsisMarker : List Char := ['.', '.', '.']

def truncateRunes (runes : List Char) (limit : Int) : List Char :=
  if limit ≤ 0 then []
  else if (runes.length : Int) ≤ limit then runes
  else if limit ≤ 3 then runes.take limit.toNat
  else runes.take (limit - 3).toNat ++ ellipsisMarker

/-- The same function at the `String` level, as the call sites use it. -/
def truncateRunesStr (s : String) (limit : Int) : String :=
  ⟨truncateRunes s.data limit⟩

/-! ## Data model: notification, config, Feishu card structures -/

/-- `CodexNotification` (lines 26-33): the parsed input JSON. -/
structure CodexNotification where
  type : String
  threadID : String
  turnID : String
  cwd : String
  inputMessages : List String
  lastAssistantMessage : String
  deriving Repr, DecidableEq

/-- `FeishuConfig` (lines 86-89). -/
structure FeishuConfig where
  webhookURL : String
  secret : String
  deriving Repr, DecidableEq

/-- `FeishuText` (lines 59-62). -/
structure FeishuText where
  tag : String
  content : String
  deriving Repr, DecidableEq

/-- `FeishuField` (lines 70-73). -/
structure FeishuField where
  isShort : Bool
  text : FeishuText
  deriving Repr, DecidableEq

/-- `FeishuDiv` (lines 64-68): `Text` is a pointer, hence `Option`. -/
structure FeishuDiv where
  tag : String
  fields : List FeishuField
  text : Option FeishuText
  deriving Repr, DecidableEq

/-- `FeishuNote` (lines 75-78). -/
structure FeishuNote where
  tag : String
  elements : List FeishuText
  deriving Repr, DecidableEq

/-- `FeishuHr` (lines 80-82). -/
structure FeishuHr where
  tag : String
  deriving Repr, DecidableEq

/-- The `elements []interface{}` slice only ever holds these three struct
types, so we model it as a sum. -/
inductive FeishuElement where
  | div (d : FeishuDiv)
  | hr (h : FeishuHr)
  | note (n : FeishuNote)
  deriving Repr, DecidableEq

/-- `FeishuCardConfig` (lines 50-52). -/
structure FeishuCardConfig where
  wideScreenMode : Bool
  deriving Repr, DecidableEq

/-- `FeishuHeader` (lines 54-57). -/
structure FeishuHeader where
  title : FeishuText
  template : String
  deriving Repr, DecidableEq

/-- `FeishuCard` (lines 44-48). -/
structure FeishuCard where
  config : FeishuCardConfig
  header : FeishuHeader
  elements : List FeishuElement
  deriving Repr, DecidableEq

/-- `FeishuCardMsg` (lines 37-42): the outbound payload. -/
structure FeishuCardMsg where
  timestamp : String
  sign : String
  msgType : String
  card : FeishuCard
  deriving Repr, DecidableEq

/-- `FeishuResponse` (lines 91-96): the webhook's reply body. -/
structure FeishuResponse where
  code : Int
  msg : String
  statusCode : Int
  statusMessage : String
  deriving Repr, DecidableEq

/-! ## Decimal rendering (`strconv.FormatInt(ts, 10)` / `fmt.Sprintf("%d", ·)`) -/

/-- Decimal digits of a natural number, most significant first. -/
def natDecimal (n : Nat) : List Char :=
  if n < 10 then [Nat.digitChar n]
  else natDecimal (n / 10) ++ [Nat.digitChar (n % 10)]
decreasing_by exact Nat.div_lt_self (by omega) (by omega)

/-- Go's decimal rendering of a (64-bit) integer, e.g. `-5 ↦ "-5"`. -/
def formatInt : Int → String
  | .ofNat n => ⟨natDecimal n⟩
  | .negSucc n => ⟨'-' :: natDecimal (n + 1)⟩

/-! ## strings.TrimSpace

`strings.TrimSpace` drops leading/trailing `unicode.IsSpace` runes.
`unicode.IsSpace` holds exactly on the Unicode White_Space property set:
'\t', '\n', '\v', '\f', '\r', ' ', U+0085, U+00A0, U+1680,
U+2000..U+200A, U+2028, U+2029, U+202F, U+205F, U+3000. -/

def goIsSpace (c : Char) : Bool :=
  c = '\t' || c = '\n' || c = Char.ofNat 11 || c = Char.ofNat 12 ||
  c = '\r' || c = ' ' || c = Char.ofNat 133 || c = Char.ofNat 160 ||
  c = Char.ofNat 5760 || (8192 ≤ c.toNat && c.toNat ≤ 8202) ||
  c = Char.ofNat 8232 || c = Char.ofNat 8233 || c = Char.ofNat 8239 ||
  c = Char.ofNat 8287 || c = Char.ofNat 12288

def trimSpace (s : String) : String :=
  ⟨((s.data.dropWhile goIsSpace).reverse.dropWhile goIsSpace).reverse⟩

/-! ## SHA-256 (`crypto/sha256`), bytes as `Nat` values < 256, words as
`Nat` values reduced mod 2^32 -/

def w32 (n : Nat) : Nat := n % 4294967296

def rotr32 (k n : Nat) : Nat := w32 ((n >>> k) ||| (n <<< (32 - k)))

def bigSigma0 (x : Nat) : Nat := rotr32 2 x ^^^ rotr32 13 x ^^^ rotr32 22 x

def bigSigma1 (x : Nat) : Nat := rotr32 6 x ^^^ rotr32 11 x ^^^ rotr32 25 x

def smallSigma0 (x : Nat) : Nat := rotr32 7 x ^^^ rotr32 18 x ^^^ (x >>> 3)

def smallSigma1 (x : Nat) : Nat := rotr32 17 x ^^^ rotr32 19 x ^^^ (x >>> 10)

def chF (x y z : Nat) : Nat := (x &&& y) ^^^ ((x ^^^ 4294967295) &&& z)

def majF (x y z : Nat) : Nat := (x &&& y) ^^^ (x &&& z) ^^^ (y &&& z)

/-- The 64 round constants of FIPS 180-4, written in decimal. -/
def sha256K : List Nat :=
  [1116352408, 1899447441, 3049323471, 3921009573,
   961987163, 1508970993, 2453635748, 2870763221,
   3624381080, 310598401, 607225278, 1426881987,
   1925078388, 2162078206, 2614888103, 3248222580,
   3835390401, 4022224774, 264347078, 604807628,
   770255983, 1249150122, 1555081692, 1996064986,
   2554220882, 2821834349, 2952996808, 3210313671,
   3336571891, 3584528711, 113926993, 338241895,
   666307205, 773529912, 1294757372, 1396182291,
   1695183700, 1986661051, 2177026350, 2456956037,
   2730485921, 2820302411, 3259730800, 3345764771,
   3516065817, 3600352804, 4094571909, 275423344,
   430227734, 506948616, 659060556, 883997877,
   958139571, 1322822218, 1537002063, 1747873779,
   1955562222, 2024104815, 2227730452, 2361852424,
   2428436474, 2756734187, 3204031479, 3329325298]

/-- Big-endian 4-byte groups to 32-bit words. -/
def bytesToWords32 : List Nat → List Nat
  | b0 :: b1 :: b2 :: b3 :: rest => (((b0 * 256 + b1) * 256 + b2) * 256 + b3) :: bytesToWords32 rest
  | _ => []

/-- Extend the 16-word schedule by `k` more words. -/
def sha256Extend : Nat → List Nat → List Nat
  | 0, w => w
  | k + 1, w =>
    let n := w.length
    let wt := w32 (smallSigma1 (w.getD (n - 2) 0) + w.getD (n - 7) 0 +
                   smallSigma0 (w.getD (n - 15) 0) + w.getD (n - 16) 0)
    sha256Extend k (w ++ [wt])

/-- The eight working variables / hash words. -/
structure Sha8 where
  a : Nat
  b : Nat
  c : Nat
  d : Nat
  e : Nat
  f : Nat
  g : Nat
  h : Nat
  deriving Repr

def sha256Round (s : Sha8) (wk : Nat × Nat) : Sha8 :=
  let t1 := w32 (s.h + bigSigma1 s.e + chF s.e s.f s.g + wk.2 + wk.1)
  let t2 := w32 (bigSigma0 s.a + majF s.a s.b s.c)
  ⟨w32 (t1 + t2), s.a, s.b, s.c, w32 (s.d + t1), s.e, s.f, s.g⟩

def sha256Compress (st : Sha8) (block : List Nat) : Sha8 :=
  let w := sha256Extend 48 (bytesToWords32 block)
  let s := (w.zip sha256K).foldl sha256Round st
  ⟨w32 (st.a + s.a), w32 (st.b + s.b), w32 (st.c + s.c), w32 (st.d + s.d),
   w32 (st.e + s.e), w32 (st.f + s.f), w32 (st.g + s.g), w32 (st.h + s.h)⟩

def be64Bytes (n : Nat) : List Nat :=
  [n >>> 56 % 256, n >>> 48 % 256, n >>> 40 % 256, n >>> 32 % 256,
   n >>> 24 % 256, n >>> 16 % 256, n >>> 8 % 256, n % 256]

def be32Bytes (n : Nat) : List Nat :=
  [n >>> 24 % 256, n >>> 16 % 256, n >>> 8 % 256, n % 256]

/-- Append `0x80`, zero padding to 56 mod 64, and the bit length. -/
def sha256Pad (msg : List Nat) : List Nat :=
  msg ++ 0x80 :: (List.replicate ((119 - msg.length % 64) % 64) 0 ++ be64Bytes (8 * msg.length))

def chunks64 (l : List Nat) : List (List Nat) :=
  if h : l = [] then []
  else l.take 64 :: chunks64 (l.drop 64)
termination_by l.length
decreasing_by
  have := List.length_pos.mpr h
  simp only [List.length_drop]
  omega

/-- The eight initial hash values of FIPS 180-4, written in decimal. -/
def sha256Init : Sha8 :=
  ⟨1779033703, 3144134277, 1013904242, 2773480762,
   1359893119, 2600822924, 528734635, 1541459225⟩

def sha256 (msg : List Nat) : List Nat :=
  let st := (chunks64 (sha256Pad msg)).foldl sha256Compress sha256Init
  be32Bytes st.a ++ be32Bytes st.b ++ be32Bytes st.c ++ be32Bytes st.d ++
  be32Bytes st.e ++ be32Bytes st.f ++ be32Bytes st.g ++ be32Bytes st.h

/-! ## HMAC-SHA256 (`crypto/hmac`, RFC 2104, block size 64) -/

def hmacSha256 (key msg : List Nat) : List Nat :=
  let k0 := if 64 < key.length then sha256 key else key
  let kp := k0 ++ List.replicate (64 - k0.length) 0
  sha256 ((kp.map fun b => b ^^^ 0x5c) ++ sha256 ((kp.map fun b => b ^^^ 0x36) ++ msg))

/-! ## Standard base64 (`encoding/base64` StdEncoding, with `=` padding) -/

def base64Table : List Char :=
  "ABCDEFGHIJKLMNOPQRSTUVWXYZabcdefghijklmnopqrstuvwxyz0123456789+/".data

def base64Digit (n : Nat) : Char := base64Table.getD n 'A'

def base64StdEncode : List Nat → List Char
  | [] => []
  | [b1] =>
    let n := b1 <<< 16
    [base64Digit (n >>> 18 % 64), base64Digit (n >>> 12 % 64), '=', '=']
  | [b1, b2] =>
    let n := b1 <<< 16 ||| b2 <<< 8
    [base64Digit (n >>> 18 % 64), base64Digit (n >>> 12 % 64), base64Digit (n >>> 6 % 64), '=']
  | b1 :: b2 :: b3 :: rest =>
    let n := b1 <<< 16 ||| b2 <<< 8 ||| b3
    base64Digit (n >>> 18 % 64) :: base64Digit (n >>> 12 % 64) ::
      base64Digit (n >>> 6 % 64) :: base64Digit (n % 64) :: base64StdEncode rest

/-- UTF-8 encoding of one scalar value (Go `[]byte(string)`). -/
def utf8EncodeChar (c : Char) : List Nat :=
  let n := c.toNat
  if n < 128 then [n]
  else if n < 2048 then [192 ||| (n >>> 6), 128 ||| (n &&& 63)]
  else if n < 65536 then [224 ||| (n >>> 12), 128 ||| ((n >>> 6) &&& 63), 128 ||| (n &&& 63)]
  else [240 ||| (n >>> 18), 128 ||| ((n >>> 12) &&& 63), 128 ||| ((n >>> 6) &&& 63), 128 ||| (n &&& 63)]

def strToBytes (s : String) : List Nat := (s.data.map utf8EncodeChar).flatten

/-! ## GenSign (codex_feishu.go lines 141-151)

```go
func GenSign(secret string, timestamp int64) (string, error) {
    stringToSign := fmt.Sprintf("%d\n%s", timestamp, secret)
    var data []byte
    h := hmac.New(sha256.New, []byte(stringToSign))
    _, err := h.Write(data)  // nil slice: writes nothing, never fails
    ...
    return base64.StdEncoding.EncodeToString(h.Sum(nil)), nil
}
```
`h.Write` on a hash never returns an error, so the Go error path is
unreachable and the model returns the signature string directly. -/

def GenSign (secret : String) (timestamp : Int) : String :=
  let stringToSign := formatInt timestamp ++ "\n" ++ secret
  ⟨base64StdEncode (hmacSha256 (strToBytes stringToSign) [])⟩

/-! ## Card construction (sendFeishuCard, lines 153-253)

`sendFeishuCard` interleaves pure formatting with two effects: `time.Now()`
(used for the signature timestamp and the footer clock) and the HTTP round
trip. The pure part is `buildCardMsg`, taking the Unix timestamp `ts` and
the formatted wall clock `nowClock` ("15:04:05") as oracle inputs. -/

def noResultPlaceholder : String := "（无执行结果描述）"

def buildCardMsg (n : CodexNotification) (cfg : FeishuConfig) (ts : Int)
    (nowClock : String) : FeishuCardMsg :=
  let userIntent := match n.inputMessages with
    | [] => "Unknown Task"
    | m :: _ => m
  let displayTitle := truncateRunesStr userIntent 30
  let timestampStr := if cfg.secret ≠ "" then formatInt ts else ""
  let sign := if cfg.secret ≠ "" then GenSign cfg.secret ts else ""
  let inputContent := String.intercalate "\n" n.inputMessages
  let resultTrimmed := trimSpace n.lastAssistantMessage
  let resultContent :=
    truncateRunesStr (if resultTrimmed = "" then noResultPlaceholder else resultTrimmed) 500
  { timestamp := timestampStr
    sign := sign
    msgType := "interactive"
    card :=
      { config := ⟨true⟩
        header :=
          { template := "indigo"
            title := ⟨"plain_text", "🤖 Codex 任务完成: " ++ displayTitle⟩ }
        elements :=
          [ .div ⟨"div", [], some ⟨"lark_md", "**📝 输入指令:**\n" ++ inputContent⟩⟩
          , .hr ⟨"hr"⟩
          , .div ⟨"div", [], some ⟨"lark_md", "**✅ 执行结果:**\n" ++ resultContent⟩⟩
          , .hr ⟨"hr"⟩
          , .div ⟨"div",
              [ ⟨true, ⟨"lark_md", "**📂 工作路径:**\n`" ++ n.cwd ++ "`"⟩⟩
              , ⟨true, ⟨"lark_md", "**🆔 Thread ID:**\n`" ++ n.threadID ++ "`"⟩⟩ ], none⟩
          , .note ⟨"note", [⟨"plain_text", "Generated by Codex at " ++ nowClock⟩]⟩ ] } }

/-! ## JSON serialization (`encoding/json` on the payload structs)

Keys follow the struct tags and field order; `omitempty` on a string drops
the key when the string is empty, and on a slice / pointer when it is
empty / nil. -/

inductive Json where
  | str (s : String)
  | num (n : Int)
  | bool (b : Bool)
  | arr (elems : List Json)
  | obj (fields : List (String × Json))
  deriving Repr

def feishuTextJson (t : FeishuText) : Json :=
  .obj [("tag", .str t.tag), ("content", .str t.content)]

def feishuFieldJson (f : FeishuField) : Json :=
  .obj [("is_short", .bool f.isShort), ("text", feishuTextJson f.text)]

def feishuElementJson : FeishuElement → Json
  | .div d =>
    .obj (("tag", .str d.tag) ::
      ((if d.fields = [] then [] else [("fields", .arr (d.fields.map feishuFieldJson))]) ++
       (match d.text with
        | none => []
        | some t => [("text", feishuTextJson t)])))
  | .hr hh => .obj [("tag", .str hh.tag)]
  | .note nt => .obj [("tag", .str nt.tag), ("elements", .arr (nt.elements.map feishuTextJson))]

def feishuCardJson (c : FeishuCard) : Json :=
  .obj [("config", .obj [("wide_screen_mode", .bool c.config.wideScreenMode)]),
        ("header", .obj [("title", feishuTextJson c.header.title),
                         ("template", .str c.header.template)]),
        ("elements", .arr (c.elements.map feishuElementJson))]

/-- `json.Marshal(cardMsg)`: `timestamp` and `sign` carry `omitempty`. -/
def feishuCardMsgJson (m : FeishuCardMsg) : Json :=
  .obj ((if m.timestamp = "" then [] else [("timestamp", .str m.timestamp)]) ++
        (if m.sign = "" then [] else [("sign", .str m.sign)]) ++
        [("msg_type", .str m.msgType), ("card", feishuCardJson m.card)])

def topLevelKeys : Json → List String
  | .obj fields => fields.map Prod.fst
  | _ => []

/-! ## HTTP round trip and response handling (lines 260-290) -/

structure HttpRequest where
  method : String
  url : String
  contentType : String
  body : Json

/-- Outcome of `client.Do` plus `json.Unmarshal` of the body, supplied as an
oracle: `decoded` is what `json.Unmarshal([]byte(bodyRaw), &feishuResp)`
produced (`none` = decode error). -/
inductive HttpResult where
  | transportError (msg : String)
  | response (status : Int) (bodyRaw : String) (decoded : Option FeishuResponse)

/-- Lines 268-290: status check, body decode, dual status-code check. -/
def handleResponse : HttpResult → Except String Unit
  | .transportError e => .error e
  | .response status bodyRaw decoded =>
    if status ≠ 200 then .error ("status: " ++ formatInt status ++ ", resp: " ++ bodyRaw)
    else match decoded with
      | none => .error ("decode feishu response (payload: " ++ bodyRaw ++ ")")
      | some r =>
        if r.code ≠ 0 ∨ r.statusCode ≠ 0 then
          .error ("feishu error code=" ++ formatInt r.code ++
                  " statusCode=" ++ formatInt r.statusCode ++
                  " msg=" ++ r.msg ++ " statusMessage=" ++ r.statusMessage)
        else .ok ()

/-- `sendFeishuCard`: builds the message, always issues exactly one POST with
JSON content type to the configured URL, then interprets the response. The
`json.Marshal` and `http.NewRequest` error paths are unreachable for this
fixed payload shape. Returns the Go error together with the request made. -/
def sendFeishuCard (n : CodexNotification) (cfg : FeishuConfig) (ts : Int)
    (nowClock : String) (http : HttpResult) : Except String Unit × HttpRequest :=
  let msg := buildCardMsg n cfg ts nowClock
  (handleResponse http, ⟨"POST", cfg.webhookURL, "application/json", feishuCardMsgJson msg⟩)

/-! ## Configuration and main (lines 98-137) -/

/-- The two environment variables; `os.Getenv` yields `""` when unset. -/
structure GoEnv where
  feishuWebhookURL : String
  feishuSecret : String

/-- `loadConfig` (lines 127-137). -/
def loadConfig (env : GoEnv) : Except String FeishuConfig :=
  let webhook := trimSpace env.feishuWebhookURL
  if webhook = "" then .error "FEISHU_WEBHOOK_URL is not set"
  else .ok ⟨webhook, trimSpace env.feishuSecret⟩

/-- Observable outcome of one process run: exit code, printed lines, and the
HTTP requests attempted. -/
structure RunResult where
  exitCode : Nat
  stdout : List String
  httpRequests : List HttpRequest

/-- `main` (lines 98-125). `argc` is `len(os.Args)`; `parsed` is the oracle
outcome of `json.Unmarshal` on `os.Args[1]`; `ts`, `nowClock`, `http` are
the effect oracles of `sendFeishuCard`. A missing `return` after usage is
modelled by the early-exit structure itself. -/
def runMain (argc : Nat) (env : GoEnv) (parsed : Except String CodexNotification)
    (ts : Int) (nowClock : String) (http : HttpResult) : RunResult :=
  if argc ≠ 2 then ⟨1, ["Usage: codex-notify <NOTIFICATION_JSON>"], []⟩
  else match loadConfig env with
    | .error e => ⟨1, ["Config error: " ++ e], []⟩
    | .ok cfg =>
      match parsed with
      | .error e => ⟨1, ["Error parsing JSON: " ++ e], []⟩
      | .ok notification =>
        if notification.type = "agent-turn-complete" then
          match sendFeishuCard notification cfg ts nowClock http with
          | (.error e, req) => ⟨1, ["Failed to send notification: " ++ e], [req]⟩
          | (.ok _, req) => ⟨0, [], [req]⟩
        else ⟨0, [], []⟩

/-! ## Helper lemmas -/

theorem truncateRunes_eq_of_long (runes : List Char) (L : Int) (h3 : 3 < L)
    (hlen : L < (runes.length : Int)) :
    truncateRunes runes L = runes.take (L - 3).toNat ++ ellipsisMarker := by
  unfold truncateRunes
  rw [if_neg (by omega), if_neg (by omega), if_neg (by omega)]

theorem natDecimal_ne_nil (n : Nat) : natDecimal n ≠ [] := by
  unfold natDecimal
  split
  · simp
  · simp

theorem formatInt_ne_empty (i : Int) : formatInt i ≠ "" := by
  cases i with
  | ofNat n =>
    simpa [formatInt, String.ext_iff] using natDecimal_ne_nil n
  | negSucc n =>
    simp [formatInt, String.ext_iff]

theorem sha256_length (msg : List Nat) : (sha256 msg).length = 32 := by
  simp [sha256, be32Bytes]

theorem hmacSha256_length (key msg : List Nat) : (hmacSha256 key msg).length = 32 := by
  unfold hmacSha256
  exact sha256_length _

theorem base64StdEncode_ne_nil (l : List Nat) (h : l ≠ []) : base64StdEncode l ≠ [] := by
  match l with
  | [] => exact absurd rfl h
  | [b1] => simp [base64StdEncode]
  | [b1, b2] => simp [base64StdEncode]
  | b1 :: b2 :: b3 :: rest => simp [base64StdEncode]

theorem GenSign_ne_empty (secret : String) (ts : Int) : GenSign secret ts ≠ "" := by
  have h32 := hmacSha256_length (strToBytes (formatInt ts ++ "\n" ++ secret)) []
  have hne : hmacSha256 (strToBytes (formatInt ts ++ "\n" ++ secret)) [] ≠ [] := by
    intro hnil
    rw [hnil] at h32
    simp at h32
  simpa [GenSign, String.ext_iff] using base64StdEncode_ne_nil _ hne

/-- `handleResponse` on a received response, written as one conditional. -/
theorem handleResponse_response (status : Int) (bodyRaw : String)
    (decoded : Option FeishuResponse) :
    handleResponse (.response status bodyRaw decoded) =
      if status ≠ 200 then .error ("status: " ++ formatInt status ++ ", resp: " ++ bodyRaw)
      else match decoded with
        | none => .error ("decode feishu response (payload: " ++ bodyRaw ++ ")")
        | some r =>
          if r.code ≠ 0 ∨ r.statusCode ≠ 0 then
            .error ("feishu error code=" ++ formatInt r.code ++
                    " statusCode=" ++ formatInt r.statusCode ++
                    " msg=" ++ r.msg ++ " statusMessage=" ++ r.statusMessage)
          else .ok () := rfl

/-- A delivered run (config loaded, type matches): one POST is made and the
outcome is decided by `handleResponse`. -/
theorem runMain_sent (env : GoEnv) (cfg : FeishuConfig) (n : CodexNotification)
    (ts : Int) (nowClock : String) (http : HttpResult)
    (hcfg : loadConfig env = .ok cfg) (hn : n.type = "agent-turn-complete") :
    runMain 2 env (.ok n) ts nowClock http =
      match handleResponse http with
      | .error e => ⟨1, ["Failed to send notification: " ++ e],
          [⟨"POST", cfg.webhookURL, "application/json",
            feishuCardMsgJson (buildCardMsg n cfg ts nowClock)⟩]⟩
      | .ok _ => ⟨0, [], [⟨"POST", cfg.webhookURL, "application/json",
          feishuCardMsgJson (buildCardMsg n cfg ts nowClock)⟩]⟩ := by
  unfold runMain
  rw [if_neg (by decide), hcfg]
  cases hh : handleResponse http with
  | error e => simp [sendFeishuCard, hn, hh]
  | ok u => simp [sendFeishuCard, hn, hh]

/-! ## Claim theorems -/

/-- C1: for every rune sequence `s` and limit `L` with `L > 3` and
`|s| > L`, `truncateRunes s L` has exactly `L` code points, consists of the
first `L - 3` code points of `s` followed by the three-character `"..."`
ellipsis marker, and ends with that marker. -/
theorem c1_truncateRunes_long (runes : List Char) (L : Int)
    (h3 : 3 < L) (hlen : L < (runes.length : Int)) :
    ((truncateRunes runes L).length : Int) = L ∧
    truncateRunes runes L = runes.take (L - 3).toNat ++ ellipsisMarker ∧
    ellipsisMarker <:+ truncateRunes runes L := by
  have he := truncateRunes_eq_of_long runes L h3 hlen
  refine ⟨?_, he, ⟨_, he.symm⟩⟩
  rw [he]
  simp only [List.length_append, List.length_take, ellipsisMarker,
    List.length_cons, List.length_nil]
  omega

/-- C1 at a concrete input: `s = "abcdefgh"` (8 runes), `L = 5` yields
`"ab..."`. -/
theorem c1_truncateRunes_long_witness :
    ((truncateRunes ['a','b','c','d','e','f','g','h'] 5).length : Int) = 5 ∧
    truncateRunes ['a','b','c','d','e','f','g','h'] 5 =
      ['a','b','c','d','e','f','g','h'].take ((5 : Int) - 3).toNat ++ ellipsisMarker ∧
    ellipsisMarker <:+ truncateRunes ['a','b','c','d','e','f','g','h'] 5 :=
  c1_truncateRunes_long ['a','b','c','d','e','f','g','h'] 5 (by decide) (by decide)

/-- C2: a rune sequence whose length is at most `L` is returned unchanged;
one longer than `L` with `L ≤ 3` is cut to exactly its first `L` code
points with no ellipsis marker appended. -/
theorem c2_truncateRunes_short (runes : List Char) (L : Int) :
    ((runes.length : Int) ≤ L → truncateRunes runes L = runes) ∧
    (L < (runes.length : Int) → L ≤ 3 → truncateRunes runes L = runes.take L.toNat) := by
  constructor
  · intro hle
    unfold truncateRunes
    by_cases h0 : L ≤ 0
    · rw [if_pos h0]
      have hz : runes.length = 0 := by omega
      exact (List.length_eq_zero.mp hz).symm
    · rw [if_neg h0, if_pos hle]
  · intro hgt hle3
    unfold truncateRunes
    by_cases h0 : L ≤ 0
    · rw [if_pos h0]
      have hz : L.toNat = 0 := by omega
      rw [hz, List.take_zero]
    · rw [if_neg h0, if_neg (by omega), if_pos hle3]

/-- C3: when the configuration loads and the argument parses to a
notification whose type is not `"agent-turn-complete"`, the run makes no
HTTP request, prints nothing, and exits with code 0. -/
theorem c3_skip_other_types (env : GoEnv) (cfg : FeishuConfig) (n : CodexNotification)
    (ts : Int) (nowClock : String) (http : HttpResult)
    (hcfg : loadConfig env = .ok cfg) (hn : n.type ≠ "agent-turn-complete") :
    runMain 2 env (.ok n) ts nowClock http = ⟨0, [], []⟩ := by
  unfold runMain
  rw [if_neg (by decide), hcfg]
  simp [hn]

/-- C3 at a concrete input: a `"session-start"` notification with a loaded
config is skipped. -/
theorem c3_skip_other_types_witness :
    loadConfig ⟨"u", ""⟩ = .ok ⟨"u", ""⟩ ∧
    ("session-start" : String) ≠ "agent-turn-complete" ∧
    runMain 2 ⟨"u", ""⟩ (.ok ⟨"session-start", "t", "1", "/tmp", [], ""⟩) 0 ""
      (.transportError "") = ⟨0, [], []⟩ :=
  ⟨rfl, by decide,
    c3_skip_other_types ⟨"u", ""⟩ ⟨"u", ""⟩ ⟨"session-start", "t", "1", "/tmp", [], ""⟩
      0 "" (.transportError "") rfl (by decide)⟩

/-- C4: for a non-empty secret, `GenSign` produces exactly the standard
base64 encoding of HMAC-SHA256 keyed by the decimal timestamp, a newline
and the secret, over the empty message; and inside the card builder the
signature only depends on the secret and timestamp, never on the
notification content. -/
theorem c4_gensign_spec (secret : String) (ts : Int) (hs : secret ≠ "") :
    GenSign secret ts =
      ⟨base64StdEncode (hmacSha256 (strToBytes (formatInt ts ++ "\n" ++ secret)) [])⟩ ∧
    ∀ (cfg : FeishuConfig) (n₁ n₂ : CodexNotification) (clock₁ clock₂ : String),
      cfg.secret = secret →
        (buildCardMsg n₁ cfg ts clock₁).sign = (buildCardMsg n₂ cfg ts clock₂).sign :=
  ⟨rfl, fun _ _ _ _ _ _ => rfl⟩

/-- C4 at a concrete input: secret `"s"`, timestamp 1. -/
theorem c4_gensign_spec_witness :
    GenSign "s" 1 =
      ⟨base64StdEncode (hmacSha256 (strToBytes (formatInt 1 ++ "\n" ++ "s")) [])⟩ ∧
    ∀ (cfg : FeishuConfig) (n₁ n₂ : CodexNotification) (clock₁ clock₂ : String),
      cfg.secret = "s" →
        (buildCardMsg n₁ cfg 1 clock₁).sign = (buildCardMsg n₂ cfg 1 clock₂).sign :=
  c4_gensign_spec "s" 1 (by decide)

/-- C5: the serialized outbound payload has neither a `timestamp` nor a
`sign` key when the configured secret is empty, and has both when the
secret is non-empty. -/
theorem c5_signature_fields (n : CodexNotification) (cfg : FeishuConfig)
    (ts : Int) (nowClock : String) :
    (cfg.secret = "" →
      "timestamp" ∉ topLevelKeys (feishuCardMsgJson (buildCardMsg n cfg ts nowClock)) ∧
      "sign" ∉ topLevelKeys (feishuCardMsgJson (buildCardMsg n cfg ts nowClock))) ∧
    (cfg.secret ≠ "" →
      "timestamp" ∈ topLevelKeys (feishuCardMsgJson (buildCardMsg n cfg ts nowClock)) ∧
      "sign" ∈ topLevelKeys (feishuCardMsgJson (buildCardMsg n cfg ts nowClock))) := by
  have ht : (buildCardMsg n cfg ts nowClock).timestamp =
      if cfg.secret ≠ "" then formatInt ts else "" := rfl
  have hs : (buildCardMsg n cfg ts nowClock).sign =
      if cfg.secret ≠ "" then GenSign cfg.secret ts else "" := rfl
  constructor
  · intro hempty
    rw [feishuCardMsgJson, ht, hs]
    simp [hempty, topLevelKeys]
  · intro hne
    rw [feishuCardMsgJson, ht, hs]
    simp [hne, topLevelKeys, formatInt_ne_empty ts, GenSign_ne_empty cfg.secret ts]

/-- C6: a received HTTP response yields success exactly when the status is
200, the body decodes, and both the primary `code` and secondary
`StatusCode` are zero; a non-zero pair yields an error carrying both
code/message pairs; a non-200 status an error carrying status and raw body;
an undecodable body an error carrying the raw body; and on a delivered
notification the process exit code is 0 on success and 1 otherwise. -/
theorem c6_response_handling (status : Int) (bodyRaw : String)
    (decoded : Option FeishuResponse) :
    (handleResponse (.response status bodyRaw decoded) = .ok () ↔
      status = 200 ∧ ∃ r, decoded = some r ∧ r.code = 0 ∧ r.statusCode = 0) ∧
    (∀ r, status = 200 → decoded = some r → r.code ≠ 0 ∨ r.statusCode ≠ 0 →
      handleResponse (.response status bodyRaw decoded) =
        .error ("feishu error code=" ++ formatInt r.code ++
                " statusCode=" ++ formatInt r.statusCode ++
                " msg=" ++ r.msg ++ " statusMessage=" ++ r.statusMessage)) ∧
    (status ≠ 200 →
      handleResponse (.response status bodyRaw decoded) =
        .error ("status: " ++ formatInt status ++ ", resp: " ++ bodyRaw)) ∧
    (status = 200 → decoded = none →
      handleResponse (.response status bodyRaw decoded) =
        .error ("decode feishu response (payload: " ++ bodyRaw ++ ")")) ∧
    (∀ (env : GoEnv) (cfg : FeishuConfig) (n : CodexNotification) (ts : Int)
        (nowClock : String),
      loadConfig env = .ok cfg → n.type = "agent-turn-complete" →
        (runMain 2 env (.ok n) ts nowClock (.response status bodyRaw decoded)).exitCode =
          match handleResponse (.response status bodyRaw decoded) with
          | .ok _ => 0
          | .error _ => 1) := by
  refine ⟨?_, ?_, ?_, ?_, ?_⟩
  · by_cases hst : status = 200
    · subst hst
      cases decoded with
      | none =>
        rw [show handleResponse (.response 200 bodyRaw none) =
          .error ("decode feishu response (payload: " ++ bodyRaw ++ ")") from rfl]
        simp
      | some r =>
        rw [show handleResponse (.response 200 bodyRaw (some r)) =
          (if r.code ≠ 0 ∨ r.statusCode ≠ 0 then
            .error ("feishu error code=" ++ formatInt r.code ++
                    " statusCode=" ++ formatInt r.statusCode ++
                    " msg=" ++ r.msg ++ " statusMessage=" ++ r.statusMessage)
          else .ok ()) from rfl]
        by_cases hc : r.code ≠ 0 ∨ r.statusCode ≠ 0
        · rw [if_pos hc]
          constructor
          · intro h
            simp at h
          · rintro ⟨-, r', hr', hc0, hs0⟩
            rw [Option.some_inj] at hr'
            subst hr'
            rcases hc with hc | hc
            · exact absurd hc0 hc
            · exact absurd hs0 hc
        · rw [if_neg hc]
          push_neg at hc
          constructor
          · intro _
            exact ⟨rfl, r, rfl, hc.1, hc.2⟩
          · intro _
            rfl
    · rw [handleResponse_response, if_pos hst]
      simp [hst]
  · intro r hst hdec hc
    subst hst
    subst hdec
    rw [handleResponse_response, if_neg (by omega)]
    exact if_pos hc
  · intro hst
    rw [handleResponse_response, if_pos hst]
  · intro hst hdec
    subst hst
    subst hdec
    rw [handleResponse_response, if_neg (by omega)]
  · intro env cfg n ts nowClock hcfg hn
    rw [runMain_sent env cfg n ts nowClock (.response status bodyRaw decoded) hcfg hn]
    cases handleResponse (.response status bodyRaw decoded) <;> rfl

/-- C7: a webhook URL that is blank after trimming makes `loadConfig` fail
with the configuration error and the whole run exit 1 with that error and
no HTTP request; a non-blank URL loads successfully even when the secret
trims to empty. -/
theorem c7_webhook_required (env : GoEnv) :
    (trimSpace env.feishuWebhookURL = "" →
      loadConfig env = .error "FEISHU_WEBHOOK_URL is not set" ∧
      ∀ parsed ts nowClock http,
        runMain 2 env parsed ts nowClock http =
          ⟨1, ["Config error: FEISHU_WEBHOOK_URL is not set"], []⟩) ∧
    (trimSpace env.feishuWebhookURL ≠ "" →
      loadConfig env = .ok ⟨trimSpace env.feishuWebhookURL, trimSpace env.feishuSecret⟩) := by
  constructor
  · intro hw
    have hl : loadConfig env = .error "FEISHU_WEBHOOK_URL is not set" := by
      unfold loadConfig
      rw [if_pos hw]
    refine ⟨hl, ?_⟩
    intro parsed ts nowClock http
    unfold runMain
    rw [if_neg (by decide), hl]
    rfl
  · intro hw
    unfold loadConfig
    rw [if_neg hw]

/-- C8: the second body block of the card (element index 2, after the input
block and a divider) is the final assistant message trimmed of whitespace,
replaced by the fixed placeholder when the trimmed text is empty, then
truncated to 500 code points by the same `truncateRunes` rule as the
title. -/
theorem c8_result_block (n : CodexNotification) (cfg : FeishuConfig)
    (ts : Int) (nowClock : String) :
    (buildCardMsg n cfg ts nowClock).card.elements[2]? =
      some (.div ⟨"div", [], some ⟨"lark_md",
        "**✅ 执行结果:**\n" ++
          truncateRunesStr
            (if trimSpace n.lastAssistantMessage = "" then noResultPlaceholder
             else trimSpace n.lastAssistantMessage) 500⟩⟩) := rfl

/-- C9: the card header title is the fixed prefix followed by the first
input message truncated to 30 code points (so the truncated first message
is a suffix of the title), with the fixed `"Unknown Task"` placeholder used
when the input-message list is empty. -/
theorem c9_header_title (n : CodexNotification) (cfg : FeishuConfig)
    (ts : Int) (nowClock : String) :
    ((buildCardMsg n cfg ts nowClock).card.header.title.content =
      "🤖 Codex 任务完成: " ++
        truncateRunesStr
          (match n.inputMessages with | [] => "Unknown Task" | m :: _ => m) 30) ∧
    (n.inputMessages = [] →
      (buildCardMsg n cfg ts nowClock).card.header.title.content =
        "🤖 Codex 任务完成: " ++ "Unknown Task") ∧
    (∀ m rest, n.inputMessages = m :: rest →
      (truncateRunesStr m 30).data <:+
        (buildCardMsg n cfg ts nowClock).card.header.title.content.data) := by
  refine ⟨rfl, ?_, ?_⟩
  · intro hnil
    have : (buildCardMsg n cfg ts nowClock).card.header.title.content =
        "🤖 Codex 任务完成: " ++
          truncateRunesStr
            (match n.inputMessages with | [] => "Unknown Task" | m :: _ => m) 30 := rfl
    rw [this, hnil]
    congr 1
  · intro m rest hcons
    have : (buildCardMsg n cfg ts nowClock).card.header.title.content =
        "🤖 Codex 任务完成: " ++
          truncateRunesStr
            (match n.inputMessages with | [] => "Unknown Task" | m :: _ => m) 30 := rfl
    rw [this, hcons, String.data_append]
    exact ⟨_, rfl⟩

/-- C10: configuration is validated before the notification JSON or its
event type is looked at: with a blank webhook URL the run exits 1 with the
configuration error and no HTTP request, whatever the parse outcome of the
argument — malformed JSON and non-`"agent-turn-complete"` types included. -/
theorem c10_config_before_parse (env : GoEnv) (parsed : Except String CodexNotification)
    (ts : Int) (nowClock : String) (http : HttpResult)
    (hw : trimSpace env.feishuWebhookURL = "") :
    runMain 2 env parsed ts nowClock http =
      ⟨1, ["Config error: FEISHU_WEBHOOK_URL is not set"], []⟩ := by
  have hl : loadConfig env = .error "FEISHU_WEBHOOK_URL is not set" := by
    unfold loadConfig
    rw [if_pos hw]
  unfold runMain
  rw [if_neg (by decide), hl]
  rfl

/-- C10 at a concrete input: a blank URL (spaces only) and a malformed
argument still yield the configuration error. -/
theorem c10_config_before_parse_witness :
    trimSpace "   " = "" ∧
    runMain 2 ⟨"   ", "sec"⟩ (.error "unexpected end of JSON input") 0 ""
        (.transportError "") =
      ⟨1, ["Config error: FEISHU_WEBHOOK_URL is not set"], []⟩ :=
  ⟨by decide,
    c10_config_before_parse ⟨"   ", "sec"⟩ (.error "unexpected end of JSON input") 0 ""
      (.transportError "") (by decide)⟩

end CodexFeishu
